import Mathlib

/-!
# CCS static data definitions (`ccs-data-defs.h`)

A shallow embedding of the binary-format definitions of the MIPI CCS static
data blob: the C enumerations become inductive types with a `toNat` giving the
enumerator's integer value, the `#define` constants become `Nat` constants, and
the packed structures become lists of members with their byte sizes.  Bytes
(`uint8_t`) are natural numbers below 256.
-/

namespace CcsData

/-! ## Packed structures -/

/-- A member of a C structure: its name and the number of bytes it occupies. -/
structure Member where
  name : String
  size : Nat

/-- Size in bytes of `uint8_t`. -/
def sizeof_uint8_t : Nat := 1

/-- Size in bytes of a structure declared `__attribute__((packed))`: the members
follow each other without padding. -/
def sizeofPacked (members : List Member) : Nat :=
  (members.map Member.size).sum

/-- Byte offset of member number `i` of a packed structure. -/
def offsetofPacked (members : List Member) (i : Nat) : Nat :=
  sizeofPacked (members.take i)

/-! ## Length specifiers and block headers -/

/-- The constant `CCS_STATIC_DATA_VERSION`. -/
def CCS_STATIC_DATA_VERSION : Nat := 0

/-- The enumeration `enum __ccs_data_length_specifier_id`. -/
inductive __ccs_data_length_specifier_id
  | CCS_DATA_LENGTH_SPECIFIER_1
  | CCS_DATA_LENGTH_SPECIFIER_2
  | CCS_DATA_LENGTH_SPECIFIER_3
  deriving DecidableEq

/-- Integer value of a length specifier id. -/
def __ccs_data_length_specifier_id.toNat : __ccs_data_length_specifier_id → Nat
  | .CCS_DATA_LENGTH_SPECIFIER_1 => 0
  | .CCS_DATA_LENGTH_SPECIFIER_2 => 1
  | .CCS_DATA_LENGTH_SPECIFIER_3 => 2

/-- The constant `CCS_DATA_LENGTH_SPECIFIER_SIZE_SHIFT`. -/
def CCS_DATA_LENGTH_SPECIFIER_SIZE_SHIFT : Nat := 6

/-- The structure `struct __ccs_data_length_specifier`. -/
def __ccs_data_length_specifier : List Member :=
  [⟨"length", sizeof_uint8_t⟩]

/-- The structure `struct __ccs_data_length_specifier2`. -/
def __ccs_data_length_specifier2 : List Member :=
  [⟨"length", 2 * sizeof_uint8_t⟩]

/-- The structure `struct __ccs_data_length_specifier3`. -/
def __ccs_data_length_specifier3 : List Member :=
  [⟨"length", 3 * sizeof_uint8_t⟩]

/-- The structure `struct __ccs_data_block`. -/
def __ccs_data_block : List Member :=
  [⟨"id", sizeof_uint8_t⟩, ⟨"length", sizeofPacked __ccs_data_length_specifier⟩]

/-- The constant `CCS_DATA_BLOCK_HEADER_ID_VERSION_SHIFT`. -/
def CCS_DATA_BLOCK_HEADER_ID_VERSION_SHIFT : Nat := 5

/-- The structure `struct __ccs_data_block3`. -/
def __ccs_data_block3 : List Member :=
  [⟨"id", sizeof_uint8_t⟩, ⟨"length", sizeofPacked __ccs_data_length_specifier2⟩]

/-- The structure `struct __ccs_data_block4`. -/
def __ccs_data_block4 : List Member :=
  [⟨"id", sizeof_uint8_t⟩, ⟨"length", sizeofPacked __ccs_data_length_specifier3⟩]

/-! ## Block ids -/

/-- The enumeration `enum __ccs_data_block_id`. -/
inductive __ccs_data_block_id
  | CCS_DATA_BLOCK_ID_DUMMY
  | CCS_DATA_BLOCK_ID_DATA_VERSION
  | CCS_DATA_BLOCK_ID_SENSOR_READ_ONLY_REGS
  | CCS_DATA_BLOCK_ID_MODULE_READ_ONLY_REGS
  | CCS_DATA_BLOCK_ID_SENSOR_MANUFACTURER_REGS
  | CCS_DATA_BLOCK_ID_MODULE_MANUFACTURER_REGS
  | CCS_DATA_BLOCK_ID_SENSOR_RULE_BASED_BLOCK
  | CCS_DATA_BLOCK_ID_MODULE_RULE_BASED_BLOCK
  | CCS_DATA_BLOCK_ID_SENSOR_PDAF_PIXEL_LOCATION
  | CCS_DATA_BLOCK_ID_MODULE_PDAF_PIXEL_LOCATION
  | CCS_DATA_BLOCK_ID_LICENSE
  | CCS_DATA_BLOCK_ID_END
  deriving DecidableEq

/-- Integer value of a block id. -/
def __ccs_data_block_id.toNat : __ccs_data_block_id → Nat
  | .CCS_DATA_BLOCK_ID_DUMMY => 1
  | .CCS_DATA_BLOCK_ID_DATA_VERSION => 2
  | .CCS_DATA_BLOCK_ID_SENSOR_READ_ONLY_REGS => 3
  | .CCS_DATA_BLOCK_ID_MODULE_READ_ONLY_REGS => 4
  | .CCS_DATA_BLOCK_ID_SENSOR_MANUFACTURER_REGS => 5
  | .CCS_DATA_BLOCK_ID_MODULE_MANUFACTURER_REGS => 6
  | .CCS_DATA_BLOCK_ID_SENSOR_RULE_BASED_BLOCK => 32
  | .CCS_DATA_BLOCK_ID_MODULE_RULE_BASED_BLOCK => 33
  | .CCS_DATA_BLOCK_ID_SENSOR_PDAF_PIXEL_LOCATION => 36
  | .CCS_DATA_BLOCK_ID_MODULE_PDAF_PIXEL_LOCATION => 37
  | .CCS_DATA_BLOCK_ID_LICENSE => 40
  | .CCS_DATA_BLOCK_ID_END => 127

/-- All enumerators of `enum __ccs_data_block_id`, in declaration order. -/
def __ccs_data_block_id.all : List __ccs_data_block_id :=
  [.CCS_DATA_BLOCK_ID_DUMMY, .CCS_DATA_BLOCK_ID_DATA_VERSION,
   .CCS_DATA_BLOCK_ID_SENSOR_READ_ONLY_REGS, .CCS_DATA_BLOCK_ID_MODULE_READ_ONLY_REGS,
   .CCS_DATA_BLOCK_ID_SENSOR_MANUFACTURER_REGS, .CCS_DATA_BLOCK_ID_MODULE_MANUFACTURER_REGS,
   .CCS_DATA_BLOCK_ID_SENSOR_RULE_BASED_BLOCK, .CCS_DATA_BLOCK_ID_MODULE_RULE_BASED_BLOCK,
   .CCS_DATA_BLOCK_ID_SENSOR_PDAF_PIXEL_LOCATION, .CCS_DATA_BLOCK_ID_MODULE_PDAF_PIXEL_LOCATION,
   .CCS_DATA_BLOCK_ID_LICENSE, .CCS_DATA_BLOCK_ID_END]

/-- The structure `struct __ccs_data_block_version`. -/
def __ccs_data_block_version : List Member :=
  [⟨"static_data_version_major", 2 * sizeof_uint8_t⟩,
   ⟨"static_data_version_minor", 2 * sizeof_uint8_t⟩,
   ⟨"year", 2 * sizeof_uint8_t⟩,
   ⟨"month", sizeof_uint8_t⟩,
   ⟨"day", sizeof_uint8_t⟩]

/-! ## Register descriptors -/

/-- The structure `struct __ccs_data_block_regs`. -/
def __ccs_data_block_regs : List Member :=
  [⟨"reg_len", sizeof_uint8_t⟩]

/-- The constant `CCS_DATA_BLOCK_REGS_ADDR_MASK`. -/
def CCS_DATA_BLOCK_REGS_ADDR_MASK : Nat := 0x07

/-- The constant `CCS_DATA_BLOCK_REGS_LEN_SHIFT`. -/
def CCS_DATA_BLOCK_REGS_LEN_SHIFT : Nat := 3

/-- The constant `CCS_DATA_BLOCK_REGS_LEN_MASK`. -/
def CCS_DATA_BLOCK_REGS_LEN_MASK : Nat := 0x38

/-- The constant `CCS_DATA_BLOCK_REGS_SEL_SHIFT`. -/
def CCS_DATA_BLOCK_REGS_SEL_SHIFT : Nat := 6

/-- The enumeration `enum ccs_data_block_regs_sel`. -/
inductive ccs_data_block_regs_sel
  | CCS_DATA_BLOCK_REGS_SEL_REGS
  | CCS_DATA_BLOCK_REGS_SEL_REGS2
  | CCS_DATA_BLOCK_REGS_SEL_REGS3
  deriving DecidableEq

/-- Integer value of a register selector. -/
def ccs_data_block_regs_sel.toNat : ccs_data_block_regs_sel → Nat
  | .CCS_DATA_BLOCK_REGS_SEL_REGS => 0
  | .CCS_DATA_BLOCK_REGS_SEL_REGS2 => 1
  | .CCS_DATA_BLOCK_REGS_SEL_REGS3 => 2

/-- The structure `struct __ccs_data_block_regs2`. -/
def __ccs_data_block_regs2 : List Member :=
  [⟨"reg_len", sizeof_uint8_t⟩, ⟨"addr", sizeof_uint8_t⟩]

/-- The constant `CCS_DATA_BLOCK_REGS_2_ADDR_MASK`. -/
def CCS_DATA_BLOCK_REGS_2_ADDR_MASK : Nat := 0x01

/-- The constant `CCS_DATA_BLOCK_REGS_2_LEN_SHIFT`. -/
def CCS_DATA_BLOCK_REGS_2_LEN_SHIFT : Nat := 1

/-- The constant `CCS_DATA_BLOCK_REGS_2_LEN_MASK`. -/
def CCS_DATA_BLOCK_REGS_2_LEN_MASK : Nat := 0x3e

/-- The structure `struct __ccs_data_block_regs3`. -/
def __ccs_data_block_regs3 : List Member :=
  [⟨"reg_len", sizeof_uint8_t⟩, ⟨"addr", 2 * sizeof_uint8_t⟩]

/-- The constant `CCS_DATA_BLOCK_REGS_3_LEN_MASK`. -/
def CCS_DATA_BLOCK_REGS_3_LEN_MASK : Nat := 0x3f

/-! ## Frame format descriptors (FFD) -/

/-- The enumeration `enum __ccs_data_ffd_pixelcode`. -/
inductive __ccs_data_ffd_pixelcode
  | CCS_DATA_BLOCK_FFD_PIXELCODE_EMBEDDED
  | CCS_DATA_BLOCK_FFD_PIXELCODE_DUMMY
  | CCS_DATA_BLOCK_FFD_PIXELCODE_BLACK
  | CCS_DATA_BLOCK_FFD_PIXELCODE_DARK
  | CCS_DATA_BLOCK_FFD_PIXELCODE_VISIBLE
  | CCS_DATA_BLOCK_FFD_PIXELCODE_MS_0
  | CCS_DATA_BLOCK_FFD_PIXELCODE_MS_1
  | CCS_DATA_BLOCK_FFD_PIXELCODE_MS_2
  | CCS_DATA_BLOCK_FFD_PIXELCODE_MS_3
  | CCS_DATA_BLOCK_FFD_PIXELCODE_MS_4
  | CCS_DATA_BLOCK_FFD_PIXELCODE_MS_5
  | CCS_DATA_BLOCK_FFD_PIXELCODE_MS_6
  | CCS_DATA_BLOCK_FFD_PIXELCODE_TOP_OB
  | CCS_DATA_BLOCK_FFD_PIXELCODE_BOTTOM_OB
  | CCS_DATA_BLOCK_FFD_PIXELCODE_LEFT_OB
  | CCS_DATA_BLOCK_FFD_PIXELCODE_RIGHT_OB
  | CCS_DATA_BLOCK_FFD_PIXELCODE_TOP_LEFT_OB
  | CCS_DATA_BLOCK_FFD_PIXELCODE_TOP_RIGHT_OB
  | CCS_DATA_BLOCK_FFD_PIXELCODE_BOTTOM_LEFT_OB
  | CCS_DATA_BLOCK_FFD_PIXELCODE_BOTTOM_RIGHT_OB
  | CCS_DATA_BLOCK_FFD_PIXELCODE_TOTAL
  | CCS_DATA_BLOCK_FFD_PIXELCODE_TOP_PDAF
  | CCS_DATA_BLOCK_FFD_PIXELCODE_BOTTOM_PDAF
  | CCS_DATA_BLOCK_FFD_PIXELCODE_LEFT_PDAF
  | CCS_DATA_BLOCK_FFD_PIXELCODE_RIGHT_PDAF
  | CCS_DATA_BLOCK_FFD_PIXELCODE_TOP_LEFT_PDAF
  | CCS_DATA_BLOCK_FFD_PIXELCODE_TOP_RIGHT_PDAF
  | CCS_DATA_BLOCK_FFD_PIXELCODE_BOTTOM_LEFT_PDAF
  | CCS_DATA_BLOCK_FFD_PIXELCODE_BOTTOM_RIGHT_PDAF
  | CCS_DATA_BLOCK_FFD_PIXELCODE_SEPARATED_PDAF
  | CCS_DATA_BLOCK_FFD_PIXELCODE_ORIGINAL_ORDER_PDAF
  | CCS_DATA_BLOCK_FFD_PIXELCODE_VENDOR_PDAF
  deriving DecidableEq

/-- Integer value of an FFD pixelcode. -/
def __ccs_data_ffd_pixelcode.toNat : __ccs_data_ffd_pixelcode → Nat
  | .CCS_DATA_BLOCK_FFD_PIXELCODE_EMBEDDED => 1
  | .CCS_DATA_BLOCK_FFD_PIXELCODE_DUMMY => 2
  | .CCS_DATA_BLOCK_FFD_PIXELCODE_BLACK => 3
  | .CCS_DATA_BLOCK_FFD_PIXELCODE_DARK => 4
  | .CCS_DATA_BLOCK_FFD_PIXELCODE_VISIBLE => 5
  | .CCS_DATA_BLOCK_FFD_PIXELCODE_MS_0 => 8
  | .CCS_DATA_BLOCK_FFD_PIXELCODE_MS_1 => 9
  | .CCS_DATA_BLOCK_FFD_PIXELCODE_MS_2 => 10
  | .CCS_DATA_BLOCK_FFD_PIXELCODE_MS_3 => 11
  | .CCS_DATA_BLOCK_FFD_PIXELCODE_MS_4 => 12
  | .CCS_DATA_BLOCK_FFD_PIXELCODE_MS_5 => 13
  | .CCS_DATA_BLOCK_FFD_PIXELCODE_MS_6 => 14
  | .CCS_DATA_BLOCK_FFD_PIXELCODE_TOP_OB => 16
  | .CCS_DATA_BLOCK_FFD_PIXELCODE_BOTTOM_OB => 17
  | .CCS_DATA_BLOCK_FFD_PIXELCODE_LEFT_OB => 18
  | .CCS_DATA_BLOCK_FFD_PIXELCODE_RIGHT_OB => 19
  | .CCS_DATA_BLOCK_FFD_PIXELCODE_TOP_LEFT_OB => 20
  | .CCS_DATA_BLOCK_FFD_PIXELCODE_TOP_RIGHT_OB => 21
  | .CCS_DATA_BLOCK_FFD_PIXELCODE_BOTTOM_LEFT_OB => 22
  | .CCS_DATA_BLOCK_FFD_PIXELCODE_BOTTOM_RIGHT_OB => 23
  | .CCS_DATA_BLOCK_FFD_PIXELCODE_TOTAL => 24
  | .CCS_DATA_BLOCK_FFD_PIXELCODE_TOP_PDAF => 32
  | .CCS_DATA_BLOCK_FFD_PIXELCODE_BOTTOM_PDAF => 33
  | .CCS_DATA_BLOCK_FFD_PIXELCODE_LEFT_PDAF => 34
  | .CCS_DATA_BLOCK_FFD_PIXELCODE_RIGHT_PDAF => 35
  | .CCS_DATA_BLOCK_FFD_PIXELCODE_TOP_LEFT_PDAF => 36
  | .CCS_DATA_BLOCK_FFD_PIXELCODE_TOP_RIGHT_PDAF => 37
  | .CCS_DATA_BLOCK_FFD_PIXELCODE_BOTTOM_LEFT_PDAF => 38
  | .CCS_DATA_BLOCK_FFD_PIXELCODE_BOTTOM_RIGHT_PDAF => 39
  | .CCS_DATA_BLOCK_FFD_PIXELCODE_SEPARATED_PDAF => 40
  | .CCS_DATA_BLOCK_FFD_PIXELCODE_ORIGINAL_ORDER_PDAF => 41
  | .CCS_DATA_BLOCK_FFD_PIXELCODE_VENDOR_PDAF => 41

/-- The structure `struct __ccs_data_block_ffd_entry`. -/
def __ccs_data_block_ffd_entry : List Member :=
  [⟨"pixelcode", sizeof_uint8_t⟩, ⟨"reserved", sizeof_uint8_t⟩,
   ⟨"value", 2 * sizeof_uint8_t⟩]

/-- The structure `struct __ccs_data_block_ffd`. -/
def __ccs_data_block_ffd : List Member :=
  [⟨"num_column_descs", sizeof_uint8_t⟩, ⟨"num_row_descs", sizeof_uint8_t⟩]

/-! ## Rules -/

/-- The enumeration `enum __ccs_data_block_rule_id`. -/
inductive __ccs_data_block_rule_id
  | CCS_DATA_BLOCK_RULE_ID_IF
  | CCS_DATA_BLOCK_RULE_ID_READ_ONLY_REGS
  | CCS_DATA_BLOCK_RULE_ID_FFD
  | CCS_DATA_BLOCK_RULE_ID_MSR
  | CCS_DATA_BLOCK_RULE_ID_PDAF_READOUT
  deriving DecidableEq

/-- Integer value of a rule id. -/
def __ccs_data_block_rule_id.toNat : __ccs_data_block_rule_id → Nat
  | .CCS_DATA_BLOCK_RULE_ID_IF => 1
  | .CCS_DATA_BLOCK_RULE_ID_READ_ONLY_REGS => 2
  | .CCS_DATA_BLOCK_RULE_ID_FFD => 3
  | .CCS_DATA_BLOCK_RULE_ID_MSR => 4
  | .CCS_DATA_BLOCK_RULE_ID_PDAF_READOUT => 5

/-- The structure `struct __ccs_data_block_rule_if`. -/
def __ccs_data_block_rule_if : List Member :=
  [⟨"addr", 2 * sizeof_uint8_t⟩, ⟨"value", sizeof_uint8_t⟩, ⟨"mask", sizeof_uint8_t⟩]

/-- The structure `struct __ccs_data_block_end`. -/
def __ccs_data_block_end : List Member :=
  [⟨"crc", 4 * sizeof_uint8_t⟩]

/-! ## Length fields and block sizes -/

/-- The length-specifier structure that belongs to a length specifier id:
`CCS_DATA_LENGTH_SPECIFIER_1`, `_2`, `_3` go with
`__ccs_data_length_specifier`, `...2`, `...3`. -/
def lengthSpecifierStruct : __ccs_data_length_specifier_id → List Member
  | .CCS_DATA_LENGTH_SPECIFIER_1 => __ccs_data_length_specifier
  | .CCS_DATA_LENGTH_SPECIFIER_2 => __ccs_data_length_specifier2
  | .CCS_DATA_LENGTH_SPECIFIER_3 => __ccs_data_length_specifier3

/-- The block header structure whose `length` member is the length-specifier
structure of the given id: `__ccs_data_block`, `__ccs_data_block3`,
`__ccs_data_block4`. -/
def blockHeaderStruct : __ccs_data_length_specifier_id → List Member
  | .CCS_DATA_LENGTH_SPECIFIER_1 => __ccs_data_block
  | .CCS_DATA_LENGTH_SPECIFIER_2 => __ccs_data_block3
  | .CCS_DATA_LENGTH_SPECIFIER_3 => __ccs_data_block4

/-- Modelled from the spec: the block reader is not part of the header file.
A block is its packed header (id byte and length field) followed by the
payload, so its encoded size is the header size plus the payload length. -/
def blockEncodedSize (t : __ccs_data_length_specifier_id) (n : Nat) : Nat :=
  sizeofPacked (blockHeaderStruct t) + n

/-! ## FFD tables -/

/-- One decoded FFD entry: the bytes of `struct __ccs_data_block_ffd_entry`. -/
structure FfdEntry where
  pixelcode : Nat
  reserved : Nat
  value0 : Nat
  value1 : Nat
  deriving DecidableEq

/-- Modelled from the spec: the FFD decoder is not part of the header file.
Bytes taken by an FFD table that declares `c` column and `r` row descriptors:
the `__ccs_data_block_ffd` header and `c + r` entries. -/
def ffdTableSize (c r : Nat) : Nat :=
  sizeofPacked __ccs_data_block_ffd + (c + r) * sizeofPacked __ccs_data_block_ffd_entry

/-- Modelled from the spec: the FFD decoder is not part of the header file.
Payload offset at which entry `i` (counted from 0) of an FFD table starts. -/
def ffdEntryOffset (i : Nat) : Nat :=
  sizeofPacked __ccs_data_block_ffd + i * sizeofPacked __ccs_data_block_ffd_entry

/-- Modelled from the spec: the FFD decoder is not part of the header file.
Consumes `k` fixed-size entries (pixelcode, reserved byte, two value bytes)
from the front of `buf`; `none` when fewer than `k` entries are present. -/
def readFfdEntries : Nat → List Nat → Option (List FfdEntry)
  | 0, _ => some []
  | k + 1, pc :: rsv :: v0 :: v1 :: rest =>
    match readFfdEntries k rest with
    | some es => some (⟨pc, rsv, v0, v1⟩ :: es)
    | none => none
  | _ + 1, _ => none

/-- Modelled from the spec: the FFD decoder is not part of the header file.
Reads the two count bytes, then consumes `column_count + row_count` entries. -/
def decode_ffd (payload : List Nat) : Option (Nat × Nat × List FfdEntry) :=
  match payload with
  | c :: r :: rest =>
    match readFfdEntries (c + r) rest with
    | some es => some (c, r, es)
    | none => none
  | _ => none

/-- Modelled from the spec: the FFD decoder is not part of the header file.
The entry whose four bytes start at offset `off` of `payload`. -/
def ffdEntryAt (payload : List Nat) (off : Nat) : Option FfdEntry :=
  match payload.drop off with
  | pc :: rsv :: v0 :: v1 :: _ => some ⟨pc, rsv, v0, v1⟩
  | _ => none

/-! ## Theorems -/

set_option maxRecDepth 100000

open __ccs_data_length_specifier_id __ccs_data_block_id ccs_data_block_regs_sel
  __ccs_data_ffd_pixelcode __ccs_data_block_rule_id

/-! ### Auxiliary lemmas -/

/-- Reading `k` entries succeeds exactly when `4 * k` bytes are present. -/
theorem readFfdEntries_isSome (k : Nat) : ∀ buf : List Nat,
    (∃ es, readFfdEntries k buf = some es) ↔ 4 * k ≤ buf.length := by
  induction k with
  | zero => intro buf; simp [readFfdEntries]
  | succ k ih =>
    intro buf
    match buf with
    | [] => simp [readFfdEntries]
    | [_] => simp [readFfdEntries]; omega
    | [_, _] => simp [readFfdEntries]; omega
    | [_, _, _] => simp [readFfdEntries]; omega
    | pc :: rsv :: v0 :: v1 :: rest =>
      have := ih rest
      simp only [readFfdEntries, List.length_cons]
      constructor
      · rintro ⟨es, hes⟩
        cases hr : readFfdEntries k rest with
        | none => rw [hr] at hes; simp at hes
        | some es2 =>
          have := this.mp ⟨es2, hr⟩
          omega
      · intro hlen
        obtain ⟨es2, hr⟩ := this.mpr (by omega)
        exact ⟨_, by rw [hr]⟩

/-- Reading `k` entries yields `k` entries, entry `i` being the four bytes at
offset `4 * i`. -/
theorem readFfdEntries_spec (k : Nat) : ∀ (buf : List Nat) (es : List FfdEntry),
    readFfdEntries k buf = some es →
      es.length = k ∧ ∀ i, i < k → es[i]? = ffdEntryAt buf (4 * i) := by
  induction k with
  | zero =>
    intro buf es h
    simp [readFfdEntries] at h
    subst h
    simp
  | succ k ih =>
    intro buf es h
    match buf, h with
    | [], h => simp [readFfdEntries] at h
    | [_], h => simp [readFfdEntries] at h
    | [_, _], h => simp [readFfdEntries] at h
    | [_, _, _], h => simp [readFfdEntries] at h
    | pc :: rsv :: v0 :: v1 :: rest, h =>
      simp only [readFfdEntries] at h
      cases hr : readFfdEntries k rest with
      | none => rw [hr] at h; simp at h
      | some es2 =>
        rw [hr] at h
        simp only [Option.some.injEq] at h
        subst h
        obtain ⟨hl, hi⟩ := ih rest es2 hr
        refine ⟨by simp [hl], ?_⟩
        intro i hik
        cases i with
        | zero => simp [ffdEntryAt]
        | succ j =>
          have := hi j (by omega)
          simp only [List.getElem?_cons_succ, this, ffdEntryAt]
          have e : 4 * (j + 1) = (4 * j) + 1 + 1 + 1 + 1 := by ring
          rw [e]
          simp only [List.drop_succ_cons]

/-! ### Properties of the definitions -/

/-- C1: the block-id enumeration assigns DUMMY=1, DATA_VERSION=2,
SENSOR_READ_ONLY_REGS=3, MODULE_READ_ONLY_REGS=4, SENSOR_MANUFACTURER_REGS=5,
MODULE_MANUFACTURER_REGS=6, SENSOR_RULE_BASED_BLOCK=32,
MODULE_RULE_BASED_BLOCK=33, SENSOR_PDAF_PIXEL_LOCATION=36,
MODULE_PDAF_PIXEL_LOCATION=37, LICENSE=40 and END=127; these twelve numbers are
exactly the values of the enumeration, they are pairwise distinct (the value
determines the enumerator), and each lies in 0..127 with bit 7 clear. -/
theorem block_id_numeric_space :
    (CCS_DATA_BLOCK_ID_DUMMY.toNat = 1
      ∧ CCS_DATA_BLOCK_ID_DATA_VERSION.toNat = 2
      ∧ CCS_DATA_BLOCK_ID_SENSOR_READ_ONLY_REGS.toNat = 3
      ∧ CCS_DATA_BLOCK_ID_MODULE_READ_ONLY_REGS.toNat = 4
      ∧ CCS_DATA_BLOCK_ID_SENSOR_MANUFACTURER_REGS.toNat = 5
      ∧ CCS_DATA_BLOCK_ID_MODULE_MANUFACTURER_REGS.toNat = 6
      ∧ CCS_DATA_BLOCK_ID_SENSOR_RULE_BASED_BLOCK.toNat = 32
      ∧ CCS_DATA_BLOCK_ID_MODULE_RULE_BASED_BLOCK.toNat = 33
      ∧ CCS_DATA_BLOCK_ID_SENSOR_PDAF_PIXEL_LOCATION.toNat = 36
      ∧ CCS_DATA_BLOCK_ID_MODULE_PDAF_PIXEL_LOCATION.toNat = 37
      ∧ CCS_DATA_BLOCK_ID_LICENSE.toNat = 40
      ∧ CCS_DATA_BLOCK_ID_END.toNat = 127)
    ∧ (∀ n : Nat, (∃ id : __ccs_data_block_id, id.toNat = n)
        ↔ n ∈ [1, 2, 3, 4, 5, 6, 32, 33, 36, 37, 40, 127])
    ∧ Function.Injective __ccs_data_block_id.toNat
    ∧ (__ccs_data_block_id.all.map __ccs_data_block_id.toNat).Nodup
    ∧ (∀ id : __ccs_data_block_id, id ∈ __ccs_data_block_id.all)
    ∧ (∀ id : __ccs_data_block_id, id.toNat ≤ 127 ∧ id.toNat &&& 0x80 = 0) := by
  refine ⟨by decide, ?_, ?_, by decide, ?_, ?_⟩
  · intro n
    constructor
    · rintro ⟨id, rfl⟩
      cases id <;> decide
    · intro h
      simp only [List.mem_cons, List.mem_singleton, List.not_mem_nil, or_false] at h
      rcases h with h | h | h | h | h | h | h | h | h | h | h | h <;> subst h
      · exact ⟨CCS_DATA_BLOCK_ID_DUMMY, rfl⟩
      · exact ⟨CCS_DATA_BLOCK_ID_DATA_VERSION, rfl⟩
      · exact ⟨CCS_DATA_BLOCK_ID_SENSOR_READ_ONLY_REGS, rfl⟩
      · exact ⟨CCS_DATA_BLOCK_ID_MODULE_READ_ONLY_REGS, rfl⟩
      · exact ⟨CCS_DATA_BLOCK_ID_SENSOR_MANUFACTURER_REGS, rfl⟩
      · exact ⟨CCS_DATA_BLOCK_ID_MODULE_MANUFACTURER_REGS, rfl⟩
      · exact ⟨CCS_DATA_BLOCK_ID_SENSOR_RULE_BASED_BLOCK, rfl⟩
      · exact ⟨CCS_DATA_BLOCK_ID_MODULE_RULE_BASED_BLOCK, rfl⟩
      · exact ⟨CCS_DATA_BLOCK_ID_SENSOR_PDAF_PIXEL_LOCATION, rfl⟩
      · exact ⟨CCS_DATA_BLOCK_ID_MODULE_PDAF_PIXEL_LOCATION, rfl⟩
      · exact ⟨CCS_DATA_BLOCK_ID_LICENSE, rfl⟩
      · exact ⟨CCS_DATA_BLOCK_ID_END, rfl⟩
  · intro a b h
    cases a <;> cases b <;> first | rfl | exact absurd h (by decide)
  · intro id
    cases id <;> decide
  · intro id
    cases id <;> decide

/-- C2 (as stated, refuted): the id `CCS_DATA_BLOCK_ID_SENSOR_RULE_BASED_BLOCK`
is 32, and masking it with the bits below
`CCS_DATA_BLOCK_HEADER_ID_VERSION_SHIFT` gives 0, not 32; so it is not true
that the mask returns every block id unchanged. -/
theorem block_id_mask_not_identity :
    __ccs_data_block_id.CCS_DATA_BLOCK_ID_SENSOR_RULE_BASED_BLOCK.toNat
        &&& ((1 <<< CCS_DATA_BLOCK_HEADER_ID_VERSION_SHIFT) - 1) = 0
    ∧ __ccs_data_block_id.CCS_DATA_BLOCK_ID_SENSOR_RULE_BASED_BLOCK.toNat = 32
    ∧ ¬ (∀ id : __ccs_data_block_id,
          id.toNat &&& ((1 <<< CCS_DATA_BLOCK_HEADER_ID_VERSION_SHIFT) - 1) = id.toNat) := by
  refine ⟨by decide, by decide, ?_⟩
  intro h
  exact absurd (h .CCS_DATA_BLOCK_ID_SENSOR_RULE_BASED_BLOCK) (by decide)

/-- C2 (amended): masking a block id with the bits below
`CCS_DATA_BLOCK_HEADER_ID_VERSION_SHIFT` returns the id unchanged exactly for
the six ids below 32 (DUMMY, DATA_VERSION, SENSOR_READ_ONLY_REGS,
MODULE_READ_ONLY_REGS, SENSOR_MANUFACTURER_REGS, MODULE_MANUFACTURER_REGS);
the other six ids (32, 33, 36, 37, 40, 127) have a bit at position 5 or above,
and the mask always returns a value in 0..31. -/
theorem block_id_mask_identity_iff (id : __ccs_data_block_id) :
    (id.toNat &&& ((1 <<< CCS_DATA_BLOCK_HEADER_ID_VERSION_SHIFT) - 1) = id.toNat
      ↔ id ∈ [__ccs_data_block_id.CCS_DATA_BLOCK_ID_DUMMY,
              __ccs_data_block_id.CCS_DATA_BLOCK_ID_DATA_VERSION,
              __ccs_data_block_id.CCS_DATA_BLOCK_ID_SENSOR_READ_ONLY_REGS,
              __ccs_data_block_id.CCS_DATA_BLOCK_ID_MODULE_READ_ONLY_REGS,
              __ccs_data_block_id.CCS_DATA_BLOCK_ID_SENSOR_MANUFACTURER_REGS,
              __ccs_data_block_id.CCS_DATA_BLOCK_ID_MODULE_MANUFACTURER_REGS])
    ∧ (id.toNat &&& ((1 <<< CCS_DATA_BLOCK_HEADER_ID_VERSION_SHIFT) - 1) = id.toNat
      ↔ id.toNat < 32)
    ∧ (id.toNat >>> CCS_DATA_BLOCK_HEADER_ID_VERSION_SHIFT ≠ 0
      ↔ id ∈ [__ccs_data_block_id.CCS_DATA_BLOCK_ID_SENSOR_RULE_BASED_BLOCK,
              __ccs_data_block_id.CCS_DATA_BLOCK_ID_MODULE_RULE_BASED_BLOCK,
              __ccs_data_block_id.CCS_DATA_BLOCK_ID_SENSOR_PDAF_PIXEL_LOCATION,
              __ccs_data_block_id.CCS_DATA_BLOCK_ID_MODULE_PDAF_PIXEL_LOCATION,
              __ccs_data_block_id.CCS_DATA_BLOCK_ID_LICENSE,
              __ccs_data_block_id.CCS_DATA_BLOCK_ID_END])
    ∧ id.toNat &&& ((1 <<< CCS_DATA_BLOCK_HEADER_ID_VERSION_SHIFT) - 1) ≤ 31 := by
  cases id <;> decide

/-- C8: the rule-id enumeration assigns IF=1, READ_ONLY_REGS=2, FFD=3, MSR=4 and
PDAF_READOUT=5; the five values are pairwise distinct and are exactly the
numbers from 1 to 5. -/
theorem rule_id_numeric_space :
    (CCS_DATA_BLOCK_RULE_ID_IF.toNat = 1
      ∧ CCS_DATA_BLOCK_RULE_ID_READ_ONLY_REGS.toNat = 2
      ∧ CCS_DATA_BLOCK_RULE_ID_FFD.toNat = 3
      ∧ CCS_DATA_BLOCK_RULE_ID_MSR.toNat = 4
      ∧ CCS_DATA_BLOCK_RULE_ID_PDAF_READOUT.toNat = 5)
    ∧ Function.Injective __ccs_data_block_rule_id.toNat
    ∧ (∀ n : Nat, (∃ id : __ccs_data_block_rule_id, id.toNat = n) ↔ 1 ≤ n ∧ n ≤ 5) := by
  refine ⟨by decide, ?_, ?_⟩
  · intro a b h
    cases a <;> cases b <;> first | rfl | exact absurd h (by decide)
  · intro n
    constructor
    · rintro ⟨id, rfl⟩
      cases id <;> decide
    · rintro ⟨h1, h5⟩
      interval_cases n
      · exact ⟨CCS_DATA_BLOCK_RULE_ID_IF, rfl⟩
      · exact ⟨CCS_DATA_BLOCK_RULE_ID_READ_ONLY_REGS, rfl⟩
      · exact ⟨CCS_DATA_BLOCK_RULE_ID_FFD, rfl⟩
      · exact ⟨CCS_DATA_BLOCK_RULE_ID_MSR, rfl⟩
      · exact ⟨CCS_DATA_BLOCK_RULE_ID_PDAF_READOUT, rfl⟩

/-- C5: the REGS descriptor (selector 0) is 1 byte; its address field is the
low 3 bits (mask 0x07), its length field the next 3 bits (mask 0x38, shift 3)
and its selector the top 2 bits (shift 6).  The masks are disjoint, together
they cover the 6 bits below the selector, every byte is the union of its three
fields, the fields of a byte do not overlap, the length field is in 0..7, and
the selector values are REGS=0, REGS2=1, REGS3=2. -/
theorem regs_descriptor_fields (b : Nat) (hb : b < 256) :
    sizeofPacked __ccs_data_block_regs = 1
    ∧ (CCS_DATA_BLOCK_REGS_ADDR_MASK = 0x07 ∧ CCS_DATA_BLOCK_REGS_LEN_MASK = 0x38
        ∧ CCS_DATA_BLOCK_REGS_LEN_SHIFT = 3 ∧ CCS_DATA_BLOCK_REGS_SEL_SHIFT = 6)
    ∧ (CCS_DATA_BLOCK_REGS_ADDR_MASK = (1 <<< 3) - 1
        ∧ CCS_DATA_BLOCK_REGS_LEN_MASK = ((1 <<< 3) - 1) <<< CCS_DATA_BLOCK_REGS_LEN_SHIFT
        ∧ CCS_DATA_BLOCK_REGS_SEL_SHIFT + 2 = 8)
    ∧ (CCS_DATA_BLOCK_REGS_ADDR_MASK &&& CCS_DATA_BLOCK_REGS_LEN_MASK = 0
        ∧ CCS_DATA_BLOCK_REGS_ADDR_MASK ||| CCS_DATA_BLOCK_REGS_LEN_MASK
            = (1 <<< CCS_DATA_BLOCK_REGS_SEL_SHIFT) - 1)
    ∧ b = (b &&& CCS_DATA_BLOCK_REGS_ADDR_MASK) ||| (b &&& CCS_DATA_BLOCK_REGS_LEN_MASK)
          ||| ((b >>> CCS_DATA_BLOCK_REGS_SEL_SHIFT) <<< CCS_DATA_BLOCK_REGS_SEL_SHIFT)
    ∧ ((b &&& CCS_DATA_BLOCK_REGS_ADDR_MASK) &&& (b &&& CCS_DATA_BLOCK_REGS_LEN_MASK) = 0
        ∧ (b &&& CCS_DATA_BLOCK_REGS_ADDR_MASK)
            &&& ((b >>> CCS_DATA_BLOCK_REGS_SEL_SHIFT) <<< CCS_DATA_BLOCK_REGS_SEL_SHIFT) = 0
        ∧ (b &&& CCS_DATA_BLOCK_REGS_LEN_MASK)
            &&& ((b >>> CCS_DATA_BLOCK_REGS_SEL_SHIFT) <<< CCS_DATA_BLOCK_REGS_SEL_SHIFT) = 0)
    ∧ ((b &&& CCS_DATA_BLOCK_REGS_LEN_MASK) >>> CCS_DATA_BLOCK_REGS_LEN_SHIFT ≤ 7
        ∧ b &&& CCS_DATA_BLOCK_REGS_ADDR_MASK ≤ 7
        ∧ b >>> CCS_DATA_BLOCK_REGS_SEL_SHIFT ≤ 3)
    ∧ (CCS_DATA_BLOCK_REGS_SEL_REGS.toNat = 0 ∧ CCS_DATA_BLOCK_REGS_SEL_REGS2.toNat = 1
        ∧ CCS_DATA_BLOCK_REGS_SEL_REGS3.toNat = 2) := by
  have key : ∀ x : Fin 256,
      x.val = (x.val &&& CCS_DATA_BLOCK_REGS_ADDR_MASK) ||| (x.val &&& CCS_DATA_BLOCK_REGS_LEN_MASK)
          ||| ((x.val >>> CCS_DATA_BLOCK_REGS_SEL_SHIFT) <<< CCS_DATA_BLOCK_REGS_SEL_SHIFT)
      ∧ ((x.val &&& CCS_DATA_BLOCK_REGS_ADDR_MASK) &&& (x.val &&& CCS_DATA_BLOCK_REGS_LEN_MASK) = 0
        ∧ (x.val &&& CCS_DATA_BLOCK_REGS_ADDR_MASK)
            &&& ((x.val >>> CCS_DATA_BLOCK_REGS_SEL_SHIFT) <<< CCS_DATA_BLOCK_REGS_SEL_SHIFT) = 0
        ∧ (x.val &&& CCS_DATA_BLOCK_REGS_LEN_MASK)
            &&& ((x.val >>> CCS_DATA_BLOCK_REGS_SEL_SHIFT) <<< CCS_DATA_BLOCK_REGS_SEL_SHIFT) = 0)
      ∧ ((x.val &&& CCS_DATA_BLOCK_REGS_LEN_MASK) >>> CCS_DATA_BLOCK_REGS_LEN_SHIFT ≤ 7
        ∧ x.val &&& CCS_DATA_BLOCK_REGS_ADDR_MASK ≤ 7
        ∧ x.val >>> CCS_DATA_BLOCK_REGS_SEL_SHIFT ≤ 3) := by
    decide
  obtain ⟨h1, h2, h3⟩ := key ⟨b, hb⟩
  exact ⟨by decide, by decide, by decide, by decide, h1, h2, h3, by decide⟩

/-- C5, at the byte 0x5d: address 5, length 3, selector 1. -/
theorem regs_descriptor_fields_witness :
    0x5d < 256
    ∧ 0x5d = (0x5d &&& CCS_DATA_BLOCK_REGS_ADDR_MASK) ||| (0x5d &&& CCS_DATA_BLOCK_REGS_LEN_MASK)
          ||| ((0x5d >>> CCS_DATA_BLOCK_REGS_SEL_SHIFT) <<< CCS_DATA_BLOCK_REGS_SEL_SHIFT)
    ∧ (0x5d &&& CCS_DATA_BLOCK_REGS_LEN_MASK) >>> CCS_DATA_BLOCK_REGS_LEN_SHIFT = 3 :=
  ⟨by decide, (regs_descriptor_fields 0x5d (by decide)).2.2.2.2.1, by decide⟩

/-- C6: the REGS2 descriptor (selector 1) is 2 bytes, `reg_len` then `addr`; in
its first byte the address field is bit 0 (mask 0x01) and the length field is
bits 1-5 (mask 0x3e, shift 1).  The length field is in 0..31, the two masks are
disjoint from each other and lie below the selector bits at
`CCS_DATA_BLOCK_REGS_SEL_SHIFT`, and every byte is the union of its address,
length and selector fields, which do not overlap. -/
theorem regs2_descriptor_fields (b : Nat) (hb : b < 256) :
    (sizeofPacked __ccs_data_block_regs2 = 2
        ∧ __ccs_data_block_regs2.map Member.name = ["reg_len", "addr"]
        ∧ offsetofPacked __ccs_data_block_regs2 0 = 0
        ∧ offsetofPacked __ccs_data_block_regs2 1 = 1)
    ∧ (CCS_DATA_BLOCK_REGS_2_ADDR_MASK = 0x01 ∧ CCS_DATA_BLOCK_REGS_2_LEN_MASK = 0x3e
        ∧ CCS_DATA_BLOCK_REGS_2_LEN_SHIFT = 1)
    ∧ (CCS_DATA_BLOCK_REGS_2_ADDR_MASK = (1 <<< 1) - 1
        ∧ CCS_DATA_BLOCK_REGS_2_LEN_MASK = ((1 <<< 5) - 1) <<< CCS_DATA_BLOCK_REGS_2_LEN_SHIFT)
    ∧ (CCS_DATA_BLOCK_REGS_2_ADDR_MASK &&& CCS_DATA_BLOCK_REGS_2_LEN_MASK = 0
        ∧ CCS_DATA_BLOCK_REGS_2_ADDR_MASK ||| CCS_DATA_BLOCK_REGS_2_LEN_MASK
            = (1 <<< CCS_DATA_BLOCK_REGS_SEL_SHIFT) - 1)
    ∧ b = (b &&& CCS_DATA_BLOCK_REGS_2_ADDR_MASK) ||| (b &&& CCS_DATA_BLOCK_REGS_2_LEN_MASK)
          ||| ((b >>> CCS_DATA_BLOCK_REGS_SEL_SHIFT) <<< CCS_DATA_BLOCK_REGS_SEL_SHIFT)
    ∧ ((b &&& CCS_DATA_BLOCK_REGS_2_ADDR_MASK) &&& (b &&& CCS_DATA_BLOCK_REGS_2_LEN_MASK) = 0
        ∧ (b &&& CCS_DATA_BLOCK_REGS_2_ADDR_MASK)
            &&& ((b >>> CCS_DATA_BLOCK_REGS_SEL_SHIFT) <<< CCS_DATA_BLOCK_REGS_SEL_SHIFT) = 0
        ∧ (b &&& CCS_DATA_BLOCK_REGS_2_LEN_MASK)
            &&& ((b >>> CCS_DATA_BLOCK_REGS_SEL_SHIFT) <<< CCS_DATA_BLOCK_REGS_SEL_SHIFT) = 0)
    ∧ ((b &&& CCS_DATA_BLOCK_REGS_2_LEN_MASK) >>> CCS_DATA_BLOCK_REGS_2_LEN_SHIFT ≤ 31
        ∧ b &&& CCS_DATA_BLOCK_REGS_2_ADDR_MASK ≤ 1) := by
  have key : ∀ x : Fin 256,
      x.val = (x.val &&& CCS_DATA_BLOCK_REGS_2_ADDR_MASK)
          ||| (x.val &&& CCS_DATA_BLOCK_REGS_2_LEN_MASK)
          ||| ((x.val >>> CCS_DATA_BLOCK_REGS_SEL_SHIFT) <<< CCS_DATA_BLOCK_REGS_SEL_SHIFT)
      ∧ ((x.val &&& CCS_DATA_BLOCK_REGS_2_ADDR_MASK)
            &&& (x.val &&& CCS_DATA_BLOCK_REGS_2_LEN_MASK) = 0
        ∧ (x.val &&& CCS_DATA_BLOCK_REGS_2_ADDR_MASK)
            &&& ((x.val >>> CCS_DATA_BLOCK_REGS_SEL_SHIFT) <<< CCS_DATA_BLOCK_REGS_SEL_SHIFT) = 0
        ∧ (x.val &&& CCS_DATA_BLOCK_REGS_2_LEN_MASK)
            &&& ((x.val >>> CCS_DATA_BLOCK_REGS_SEL_SHIFT) <<< CCS_DATA_BLOCK_REGS_SEL_SHIFT) = 0)
      ∧ ((x.val &&& CCS_DATA_BLOCK_REGS_2_LEN_MASK) >>> CCS_DATA_BLOCK_REGS_2_LEN_SHIFT ≤ 31
        ∧ x.val &&& CCS_DATA_BLOCK_REGS_2_ADDR_MASK ≤ 1) := by
    decide
  obtain ⟨h1, h2, h3⟩ := key ⟨b, hb⟩
  exact ⟨by decide, by decide, by decide, by decide, h1, h2, h3⟩

/-- C6, at the byte 0x7f: address bit 1, length 31, selector 1. -/
theorem regs2_descriptor_fields_witness :
    0x7f < 256
    ∧ 0x7f = (0x7f &&& CCS_DATA_BLOCK_REGS_2_ADDR_MASK) ||| (0x7f &&& CCS_DATA_BLOCK_REGS_2_LEN_MASK)
          ||| ((0x7f >>> CCS_DATA_BLOCK_REGS_SEL_SHIFT) <<< CCS_DATA_BLOCK_REGS_SEL_SHIFT)
    ∧ (0x7f &&& CCS_DATA_BLOCK_REGS_2_LEN_MASK) >>> CCS_DATA_BLOCK_REGS_2_LEN_SHIFT = 31 :=
  ⟨by decide, (regs2_descriptor_fields 0x7f (by decide)).2.2.2.2.1, by decide⟩

/-- C7: the REGS3 descriptor (selector 2) is 3 bytes: a first byte `reg_len`
whose length field is all 6 bits below the selector (mask 0x3f, which is
`(1 << CCS_DATA_BLOCK_REGS_SEL_SHIFT) - 1`), then 2 address bytes, 16 bits.
The length field is in 0..63, every byte is the union of its length and
selector fields, and the two do not overlap. -/
theorem regs3_descriptor_fields (b : Nat) (hb : b < 256) :
    (sizeofPacked __ccs_data_block_regs3 = 3
        ∧ __ccs_data_block_regs3.map Member.name = ["reg_len", "addr"]
        ∧ __ccs_data_block_regs3.map Member.size = [1, 2]
        ∧ offsetofPacked __ccs_data_block_regs3 1 = 1
        ∧ 8 * (2 * sizeof_uint8_t) = 16)
    ∧ (CCS_DATA_BLOCK_REGS_3_LEN_MASK = 0x3f
        ∧ CCS_DATA_BLOCK_REGS_3_LEN_MASK = (1 <<< CCS_DATA_BLOCK_REGS_SEL_SHIFT) - 1)
    ∧ b &&& CCS_DATA_BLOCK_REGS_3_LEN_MASK ≤ 63
    ∧ b = (b &&& CCS_DATA_BLOCK_REGS_3_LEN_MASK)
          ||| ((b >>> CCS_DATA_BLOCK_REGS_SEL_SHIFT) <<< CCS_DATA_BLOCK_REGS_SEL_SHIFT)
    ∧ (b &&& CCS_DATA_BLOCK_REGS_3_LEN_MASK)
          &&& ((b >>> CCS_DATA_BLOCK_REGS_SEL_SHIFT) <<< CCS_DATA_BLOCK_REGS_SEL_SHIFT) = 0 := by
  have key : ∀ x : Fin 256,
      x.val &&& CCS_DATA_BLOCK_REGS_3_LEN_MASK ≤ 63
      ∧ x.val = (x.val &&& CCS_DATA_BLOCK_REGS_3_LEN_MASK)
          ||| ((x.val >>> CCS_DATA_BLOCK_REGS_SEL_SHIFT) <<< CCS_DATA_BLOCK_REGS_SEL_SHIFT)
      ∧ (x.val &&& CCS_DATA_BLOCK_REGS_3_LEN_MASK)
          &&& ((x.val >>> CCS_DATA_BLOCK_REGS_SEL_SHIFT) <<< CCS_DATA_BLOCK_REGS_SEL_SHIFT) = 0 := by
    decide
  obtain ⟨h1, h2, h3⟩ := key ⟨b, hb⟩
  exact ⟨by decide, by decide, h1, h2, h3⟩

/-- C7, at the byte 0xbf: length 63, selector 2. -/
theorem regs3_descriptor_fields_witness :
    0xbf < 256
    ∧ 0xbf &&& CCS_DATA_BLOCK_REGS_3_LEN_MASK ≤ 63
    ∧ 0xbf >>> CCS_DATA_BLOCK_REGS_SEL_SHIFT = CCS_DATA_BLOCK_REGS_SEL_REGS3.toNat :=
  ⟨by decide, (regs3_descriptor_fields 0xbf (by decide)).2.2.1, by decide⟩

/-- C10: in the FFD pixelcode enumeration ORIGINAL_ORDER_PDAF and VENDOR_PDAF
both have the value 41, and this is the only aliasing: two distinct names with
the same value are these two. -/
theorem ffd_pixelcode_single_alias (a b : __ccs_data_ffd_pixelcode)
    (hne : a ≠ b) (h : a.toNat = b.toNat) :
    CCS_DATA_BLOCK_FFD_PIXELCODE_ORIGINAL_ORDER_PDAF.toNat = 41
    ∧ CCS_DATA_BLOCK_FFD_PIXELCODE_VENDOR_PDAF.toNat = 41
    ∧ CCS_DATA_BLOCK_FFD_PIXELCODE_ORIGINAL_ORDER_PDAF
        ≠ CCS_DATA_BLOCK_FFD_PIXELCODE_VENDOR_PDAF
    ∧ ((a = CCS_DATA_BLOCK_FFD_PIXELCODE_ORIGINAL_ORDER_PDAF
            ∧ b = CCS_DATA_BLOCK_FFD_PIXELCODE_VENDOR_PDAF)
        ∨ (a = CCS_DATA_BLOCK_FFD_PIXELCODE_VENDOR_PDAF
            ∧ b = CCS_DATA_BLOCK_FFD_PIXELCODE_ORIGINAL_ORDER_PDAF)) := by
  refine ⟨rfl, rfl, by decide, ?_⟩
  cases a <;> cases b <;>
    first
      | exact absurd rfl hne
      | exact absurd h (by decide)
      | exact Or.inl ⟨rfl, rfl⟩
      | exact Or.inr ⟨rfl, rfl⟩

/-- C10, at the two names of the value 41. -/
theorem ffd_pixelcode_single_alias_witness :
    CCS_DATA_BLOCK_FFD_PIXELCODE_VENDOR_PDAF ≠ CCS_DATA_BLOCK_FFD_PIXELCODE_ORIGINAL_ORDER_PDAF
    ∧ CCS_DATA_BLOCK_FFD_PIXELCODE_VENDOR_PDAF.toNat
        = CCS_DATA_BLOCK_FFD_PIXELCODE_ORIGINAL_ORDER_PDAF.toNat
    ∧ CCS_DATA_BLOCK_FFD_PIXELCODE_ORIGINAL_ORDER_PDAF.toNat = 41 :=
  ⟨by decide, by decide,
    (ffd_pixelcode_single_alias CCS_DATA_BLOCK_FFD_PIXELCODE_VENDOR_PDAF
      CCS_DATA_BLOCK_FFD_PIXELCODE_ORIGINAL_ORDER_PDAF (by decide) (by decide)).1⟩

/-- C3 (as stated, refuted): `CCS_DATA_LENGTH_SPECIFIER_SIZE_SHIFT` is 6, so the
bits of a length byte below the tag have the maximum value 63, not 127.  A
length byte made of the tag `CCS_DATA_LENGTH_SPECIFIER_1` and the value 127
reads back with the tag `CCS_DATA_LENGTH_SPECIFIER_2`, and no byte has the tag
`CCS_DATA_LENGTH_SPECIFIER_1` at that shift and 127 in the bits below it. -/
theorem length_one_byte_form_not_127 :
    CCS_DATA_LENGTH_SPECIFIER_SIZE_SHIFT = 6
    ∧ (1 <<< CCS_DATA_LENGTH_SPECIFIER_SIZE_SHIFT) - 1 = 63
    ∧ (1 <<< CCS_DATA_LENGTH_SPECIFIER_SIZE_SHIFT) - 1 ≠ 127
    ∧ ((CCS_DATA_LENGTH_SPECIFIER_1.toNat <<< CCS_DATA_LENGTH_SPECIFIER_SIZE_SHIFT) ||| 127)
          >>> CCS_DATA_LENGTH_SPECIFIER_SIZE_SHIFT = CCS_DATA_LENGTH_SPECIFIER_2.toNat
    ∧ 127 >>> CCS_DATA_LENGTH_SPECIFIER_SIZE_SHIFT ≠ CCS_DATA_LENGTH_SPECIFIER_1.toNat
    ∧ ¬ (∃ b : Nat, b < 256
          ∧ b >>> CCS_DATA_LENGTH_SPECIFIER_SIZE_SHIFT = CCS_DATA_LENGTH_SPECIFIER_1.toNat
          ∧ b &&& ((1 <<< CCS_DATA_LENGTH_SPECIFIER_SIZE_SHIFT) - 1) = 127) := by
  refine ⟨rfl, by decide, by decide, by decide, by decide, ?_⟩
  rintro ⟨b, hb, _, hv⟩
  have key : ∀ x : Fin 256,
      x.val &&& ((1 <<< CCS_DATA_LENGTH_SPECIFIER_SIZE_SHIFT) - 1) ≠ 127 := by
    decide
  exact key ⟨b, hb⟩ hv

/-- C3 (amended): with the length-specifier tag in the length byte at
`CCS_DATA_LENGTH_SPECIFIER_SIZE_SHIFT` (which is 6; each of the three tags fits
in the byte there), a byte is the union of its tag and of the value bits below
the tag.  The bytes with the tag `CCS_DATA_LENGTH_SPECIFIER_1` are exactly the
bytes 0 to 63 and each holds its own value, so the one-byte form represents
every payload length from 0 to 63 and its maximum is 63.  The two-byte and
three-byte fields (tags 1 and 2) leave 8 and 16 more value bits, so their
maxima are strictly larger. -/
theorem length_specifier_maxima (b : Nat) (hb : b < 256) :
    CCS_DATA_LENGTH_SPECIFIER_SIZE_SHIFT = 6
    ∧ (∀ t : __ccs_data_length_specifier_id,
        t.toNat <<< CCS_DATA_LENGTH_SPECIFIER_SIZE_SHIFT < 256)
    ∧ b = (b &&& ((1 <<< CCS_DATA_LENGTH_SPECIFIER_SIZE_SHIFT) - 1))
          ||| ((b >>> CCS_DATA_LENGTH_SPECIFIER_SIZE_SHIFT)
                <<< CCS_DATA_LENGTH_SPECIFIER_SIZE_SHIFT)
    ∧ (b &&& ((1 <<< CCS_DATA_LENGTH_SPECIFIER_SIZE_SHIFT) - 1))
          &&& ((b >>> CCS_DATA_LENGTH_SPECIFIER_SIZE_SHIFT)
                <<< CCS_DATA_LENGTH_SPECIFIER_SIZE_SHIFT) = 0
    ∧ b &&& ((1 <<< CCS_DATA_LENGTH_SPECIFIER_SIZE_SHIFT) - 1) ≤ 63
    ∧ (b >>> CCS_DATA_LENGTH_SPECIFIER_SIZE_SHIFT = CCS_DATA_LENGTH_SPECIFIER_1.toNat
        ↔ b ≤ 63)
    ∧ (b &&& ((1 <<< CCS_DATA_LENGTH_SPECIFIER_SIZE_SHIFT) - 1) = b ↔ b ≤ 63)
    ∧ (63 >>> CCS_DATA_LENGTH_SPECIFIER_SIZE_SHIFT = CCS_DATA_LENGTH_SPECIFIER_1.toNat
        ∧ 63 &&& ((1 <<< CCS_DATA_LENGTH_SPECIFIER_SIZE_SHIFT) - 1) = 63)
    ∧ (∀ t : __ccs_data_length_specifier_id,
        8 * sizeofPacked (lengthSpecifierStruct t)
            - (8 - CCS_DATA_LENGTH_SPECIFIER_SIZE_SHIFT)
          = CCS_DATA_LENGTH_SPECIFIER_SIZE_SHIFT + 8 * t.toNat)
    ∧ 2 ^ (8 * sizeofPacked (lengthSpecifierStruct CCS_DATA_LENGTH_SPECIFIER_1)
            - (8 - CCS_DATA_LENGTH_SPECIFIER_SIZE_SHIFT)) - 1 = 63
    ∧ 2 ^ (8 * sizeofPacked (lengthSpecifierStruct CCS_DATA_LENGTH_SPECIFIER_1)
            - (8 - CCS_DATA_LENGTH_SPECIFIER_SIZE_SHIFT)) - 1
        < 2 ^ (8 * sizeofPacked (lengthSpecifierStruct CCS_DATA_LENGTH_SPECIFIER_2)
            - (8 - CCS_DATA_LENGTH_SPECIFIER_SIZE_SHIFT)) - 1
    ∧ 2 ^ (8 * sizeofPacked (lengthSpecifierStruct CCS_DATA_LENGTH_SPECIFIER_2)
            - (8 - CCS_DATA_LENGTH_SPECIFIER_SIZE_SHIFT)) - 1
        < 2 ^ (8 * sizeofPacked (lengthSpecifierStruct CCS_DATA_LENGTH_SPECIFIER_3)
            - (8 - CCS_DATA_LENGTH_SPECIFIER_SIZE_SHIFT)) - 1 := by
  have key : ∀ x : Fin 256,
      x.val = (x.val &&& ((1 <<< CCS_DATA_LENGTH_SPECIFIER_SIZE_SHIFT) - 1))
          ||| ((x.val >>> CCS_DATA_LENGTH_SPECIFIER_SIZE_SHIFT)
                <<< CCS_DATA_LENGTH_SPECIFIER_SIZE_SHIFT)
      ∧ (x.val &&& ((1 <<< CCS_DATA_LENGTH_SPECIFIER_SIZE_SHIFT) - 1))
          &&& ((x.val >>> CCS_DATA_LENGTH_SPECIFIER_SIZE_SHIFT)
                <<< CCS_DATA_LENGTH_SPECIFIER_SIZE_SHIFT) = 0
      ∧ x.val &&& ((1 <<< CCS_DATA_LENGTH_SPECIFIER_SIZE_SHIFT) - 1) ≤ 63
      ∧ (x.val >>> CCS_DATA_LENGTH_SPECIFIER_SIZE_SHIFT = CCS_DATA_LENGTH_SPECIFIER_1.toNat
          ↔ x.val ≤ 63)
      ∧ (x.val &&& ((1 <<< CCS_DATA_LENGTH_SPECIFIER_SIZE_SHIFT) - 1) = x.val
          ↔ x.val ≤ 63) := by
    decide
  obtain ⟨h1, h2, h3, h4, h5⟩ := key ⟨b, hb⟩
  refine ⟨rfl, ?_, h1, h2, h3, h4, h5, by decide, ?_, by decide, by decide, by decide⟩
  · intro t
    cases t <;> decide
  · intro t
    cases t <;> decide

/-- C3 (amended), at the byte 63: it carries the tag
`CCS_DATA_LENGTH_SPECIFIER_1` and the value 63. -/
theorem length_specifier_maxima_witness :
    63 < 256
    ∧ (63 >>> CCS_DATA_LENGTH_SPECIFIER_SIZE_SHIFT = CCS_DATA_LENGTH_SPECIFIER_1.toNat
        ↔ 63 ≤ 63)
    ∧ 63 &&& ((1 <<< CCS_DATA_LENGTH_SPECIFIER_SIZE_SHIFT) - 1) ≤ 63 :=
  ⟨by decide, (length_specifier_maxima 63 (by decide)).2.2.2.2.2.1,
    (length_specifier_maxima 63 (by decide)).2.2.2.2.1⟩

/-- C4: the length specifier ids are 0, 1 and 2; for the id `t` the length field
(`__ccs_data_length_specifier`, `...2`, `...3`) is `t + 1` bytes wide and the
packed block header (`__ccs_data_block`, `__ccs_data_block3`,
`__ccs_data_block4`), an id byte followed by that length field, is
`1 + (t + 1)` bytes; so a block with a payload of `n` bytes takes
`1 + (t + 1) + n` bytes, the length field being 1 to 3 bytes wide. -/
theorem block_header_sizes (t : __ccs_data_length_specifier_id) (n : Nat) :
    (CCS_DATA_LENGTH_SPECIFIER_1.toNat = 0 ∧ CCS_DATA_LENGTH_SPECIFIER_2.toNat = 1
        ∧ CCS_DATA_LENGTH_SPECIFIER_3.toNat = 2)
    ∧ (sizeofPacked __ccs_data_length_specifier = 1
        ∧ sizeofPacked __ccs_data_length_specifier2 = 2
        ∧ sizeofPacked __ccs_data_length_specifier3 = 3)
    ∧ (sizeofPacked __ccs_data_block = 2 ∧ sizeofPacked __ccs_data_block3 = 3
        ∧ sizeofPacked __ccs_data_block4 = 4)
    ∧ sizeofPacked (lengthSpecifierStruct t) = t.toNat + 1
    ∧ (blockHeaderStruct t).map Member.size
        = [sizeof_uint8_t, sizeofPacked (lengthSpecifierStruct t)]
    ∧ offsetofPacked (blockHeaderStruct t) 1 = 1
    ∧ sizeofPacked (blockHeaderStruct t) = 1 + (t.toNat + 1)
    ∧ blockEncodedSize t n = 1 + (t.toNat + 1) + n
    ∧ blockEncodedSize t n = 1 + sizeofPacked (lengthSpecifierStruct t) + n
    ∧ (1 ≤ sizeofPacked (lengthSpecifierStruct t)
        ∧ sizeofPacked (lengthSpecifierStruct t) ≤ 3) := by
  have hs : sizeofPacked (blockHeaderStruct t) = 1 + (t.toNat + 1) := by
    cases t <;> decide
  have hl : sizeofPacked (lengthSpecifierStruct t) = t.toNat + 1 := by
    cases t <;> decide
  refine ⟨by decide, by decide, by decide, hl, ?_, ?_, hs, ?_, ?_, ?_⟩
  · cases t <;> decide
  · cases t <;> decide
  · unfold blockEncodedSize
    rw [hs]
  · unfold blockEncodedSize
    rw [hs, hl]
  · rw [hl]
    cases t <;> decide

/-- C9: an FFD table is the 2-byte header `__ccs_data_block_ffd` (one byte
`num_column_descs`, one byte `num_row_descs`) followed by 4-byte entries
`__ccs_data_block_ffd_entry` (pixelcode, reserved byte, 2-byte value).  For
every column count `c` and row count `r` (any numbers, so in particular each
of 0..255) the table takes exactly `2 + 4 * (c + r)` bytes and entry `i` starts
at payload offset `2 + 4 * i`: a payload with these counts that has fewer bytes
is refused, one that has that many is decoded into `c + r` entries, entry `i`
being the four bytes at offset `2 + 4 * i`, inside the table. -/
theorem ffd_table_layout (c r : Nat) (rest : List Nat) :
    (sizeofPacked __ccs_data_block_ffd = 2
        ∧ __ccs_data_block_ffd.map Member.size = [1, 1]
        ∧ sizeofPacked __ccs_data_block_ffd_entry = 4
        ∧ __ccs_data_block_ffd_entry.map Member.size = [1, 1, 2])
    ∧ ffdTableSize c r = 2 + 4 * (c + r)
    ∧ (∀ i : Nat, ffdEntryOffset i = 2 + 4 * i)
    ∧ ((∃ es, decode_ffd (c :: r :: rest) = some (c, r, es))
        ↔ ffdTableSize c r ≤ (c :: r :: rest).length)
    ∧ ((c :: r :: rest).length < ffdTableSize c r → decode_ffd (c :: r :: rest) = none)
    ∧ (ffdTableSize c r ≤ (c :: r :: rest).length →
        ∃ es, decode_ffd (c :: r :: rest) = some (c, r, es)
          ∧ es.length = c + r
          ∧ ∀ i : Nat, i < c + r →
              ffdEntryOffset i + 4 ≤ ffdTableSize c r
              ∧ (es[i]?).isSome = true
              ∧ es[i]? = ffdEntryAt (c :: r :: rest) (ffdEntryOffset i))
    ∧ (decode_ffd [] = none ∧ decode_ffd [c] = none)
    ∧ (decode_ffd [0, 0] = some (0, 0, []) ∧ ffdTableSize 0 0 = 2
        ∧ ffdTableSize 255 255 = 2042) := by
  have hsz : ∀ a b : Nat, ffdTableSize a b = 2 + 4 * (a + b) := by
    intro a b
    simp only [ffdTableSize, sizeofPacked, __ccs_data_block_ffd, __ccs_data_block_ffd_entry,
      sizeof_uint8_t, List.map, List.sum_cons, List.sum_nil]
    omega
  have hoff : ∀ i : Nat, ffdEntryOffset i = 2 + 4 * i := by
    intro i
    simp only [ffdEntryOffset, sizeofPacked, __ccs_data_block_ffd, __ccs_data_block_ffd_entry,
      sizeof_uint8_t, List.map, List.sum_cons, List.sum_nil]
    omega
  have hk := readFfdEntries_isSome (c + r) rest
  have hnone : (c :: r :: rest).length < ffdTableSize c r →
      decode_ffd (c :: r :: rest) = none := by
    intro hlt
    rw [hsz, List.length_cons, List.length_cons] at hlt
    cases hr : readFfdEntries (c + r) rest with
    | none => simp only [decode_ffd, hr]
    | some es3 =>
      have := hk.mp ⟨es3, hr⟩
      omega
  have hsome : ffdTableSize c r ≤ (c :: r :: rest).length →
      ∃ es, decode_ffd (c :: r :: rest) = some (c, r, es)
        ∧ es.length = c + r
        ∧ ∀ i : Nat, i < c + r →
            ffdEntryOffset i + 4 ≤ ffdTableSize c r
            ∧ (es[i]?).isSome = true
            ∧ es[i]? = ffdEntryAt (c :: r :: rest) (ffdEntryOffset i) := by
    intro hle
    rw [hsz, List.length_cons, List.length_cons] at hle
    obtain ⟨es, hr⟩ := hk.mpr (by omega)
    obtain ⟨hlen, hent⟩ := readFfdEntries_spec (c + r) rest es hr
    refine ⟨es, by simp only [decode_ffd, hr], hlen, ?_⟩
    intro i hi
    refine ⟨by rw [hoff, hsz]; omega, ?_, ?_⟩
    · have hlt : i < es.length := by omega
      simp [List.getElem?_eq_getElem hlt]
    · rw [hent i hi, hoff]
      have e : 2 + 4 * i = 4 * i + 1 + 1 := by ring
      simp only [ffdEntryAt, e, List.drop_succ_cons]
  refine ⟨by decide, hsz c r, hoff, ?_, hnone, hsome, ⟨rfl, rfl⟩, by decide⟩
  constructor
  · rintro ⟨es, hes⟩
    by_contra hlt
    rw [hnone (by omega)] at hes
    simp at hes
  · intro hle
    obtain ⟨es, hes, _⟩ := hsome hle
    exact ⟨es, hes⟩

/-- C9, at the empty table (two zero counts, 2 bytes), at a table with one
column and one row descriptor (10 bytes, the second entry being the four bytes
at offset 6), and at the same table cut short by one byte. -/
theorem ffd_table_layout_witness :
    decode_ffd [0, 0] = some (0, 0, [])
    ∧ ffdTableSize 1 1 = 2 + 4 * (1 + 1)
    ∧ ffdEntryOffset 1 = 2 + 4 * 1
    ∧ (∃ es, decode_ffd [1, 1, 5, 0, 0, 16, 3, 0, 0, 2] = some (1, 1, es)
        ∧ es.length = 1 + 1
        ∧ ∀ i : Nat, i < 1 + 1 →
            ffdEntryOffset i + 4 ≤ ffdTableSize 1 1
            ∧ (es[i]?).isSome = true
            ∧ es[i]? = ffdEntryAt [1, 1, 5, 0, 0, 16, 3, 0, 0, 2] (ffdEntryOffset i))
    ∧ decode_ffd [1, 1, 5, 0, 0, 16, 3, 0, 0] = none
    ∧ decode_ffd [1, 1, 5, 0, 0, 16, 3, 0, 0, 2]
        = some (1, 1, [⟨5, 0, 0, 16⟩, ⟨3, 0, 0, 2⟩])
    ∧ ffdEntryAt [1, 1, 5, 0, 0, 16, 3, 0, 0, 2] (ffdEntryOffset 1) = some ⟨3, 0, 0, 2⟩ :=
  ⟨(ffd_table_layout 0 0 []).2.2.2.2.2.2.2.1,
    (ffd_table_layout 1 1 [5, 0, 0, 16, 3, 0, 0, 2]).2.1,
    (ffd_table_layout 1 1 [5, 0, 0, 16, 3, 0, 0, 2]).2.2.1 1,
    (ffd_table_layout 1 1 [5, 0, 0, 16, 3, 0, 0, 2]).2.2.2.2.2.1 (by decide),
    (ffd_table_layout 1 1 [5, 0, 0, 16, 3, 0, 0]).2.2.2.2.1 (by decide),
    by decide, by decide⟩

end CcsData
